import Mathlib

/-!
# cppasi: C++ API Server Interface

A shallow embedding of `cppasi.cpp` / `cppasi.h`:

* `std::map<std::string, std::string>` (`config_t`, `environment_t`, `headers_t`) is a
  key-ordered association list with `find`, `insert` (which never overwrites) and `at`
  (which throws `std::out_of_range`);
* exceptions are values of `Exn`, a throwing computation returns `Except Exn _`;
* the libevent transport is not executed: the calls the code makes on it are recorded;
* outcomes of the environment (`::gethostname`, `evbuffer_new`) are parameters, and the
  `syslog` calls have no effect on the state and are left out.
-/

namespace cppasi

/-- The C++ exceptions the code can raise: `std::runtime_error`, `std::out_of_range`,
`std::invalid_argument`. A call through an empty `application_` is undefined behaviour in
the source; here it stops the computation with `null_application`. -/
inductive Exn where
  | runtime_error (what : String)
  | out_of_range
  | invalid_argument
  | null_application
  deriving DecidableEq, Repr

/-- A `std::map<std::string, std::string>`: association list kept in key order. -/
abbrev map_t := List (String × String)

abbrev version_t := List Int
abbrev environment_t := map_t
abbrev config_t := map_t
abbrev headers_t := map_t

/-- Lookup as done by `std::map::find`: `none` stands for `end()`. -/
def map_find (k : String) : map_t → Option String
  | [] => none
  | (k', v') :: rest => if k = k' then some v' else map_find k rest

/-- The order of `std::string::operator<` on the characters: lexicographic, a proper
initial segment comes first. -/
def chars_lt : List Char → List Char → Bool
  | _, [] => false
  | [], _ :: _ => true
  | a :: as, b :: bs =>
    if a.toNat < b.toNat then true
    else if b.toNat < a.toNat then false
    else chars_lt as bs

/-- Key comparison of the map, `std::less<std::string>`. -/
def key_lt (a b : String) : Bool :=
  chars_lt a.data b.data

/-- Position-keeping insertion of a fresh key into a key-ordered list. -/
def insert_sorted (k v : String) : map_t → map_t
  | [] => [(k, v)]
  | (k', v') :: rest =>
    if key_lt k k' then (k, v) :: (k', v') :: rest
    else (k', v') :: insert_sorted k v rest

/-- Insertion as done by `std::map::insert`: an existing key keeps its value. -/
def map_insert (kv : String × String) (m : map_t) : map_t :=
  match map_find kv.1 m with
  | some _ => m
  | none => insert_sorted kv.1 kv.2 m

/-- Checked access as done by `std::map::at`: throws `std::out_of_range` on a missing key. -/
def map_at (m : map_t) (k : String) : Except Exn String :=
  match map_find k m with
  | some v => .ok v
  | none => .error .out_of_range

/-- The keys of a map, in iteration order. -/
def keys (m : map_t) : List String :=
  m.map Prod.fst

/-- What a consumer of `s.c_str()` reads: the characters before the first NUL. -/
def c_str (s : String) : String :=
  ⟨s.data.takeWhile (fun c => c ≠ Char.ofNat 0)⟩

def kSERVER_NAME : String := "server_name"
def kBIND_ADDRESS : String := "bind_address"
def dBIND_ADDRESS : String := "0.0.0.0"
def kPORT : String := "port"
def dPORT : String := "7077"

/-- The member function `ASI::configure_by`, on the stored `config_`.
`config` is the optional override (`none` is the null pointer); `gethostname` is the
outcome of `::gethostname`: `some name` when it returns 0, `none` when it fails. -/
def configure_by (config_ : config_t) (config : Option config_t)
    (gethostname : Option String) : config_t :=
  let c0 := match config with
    | some c => c
    | none => config_
  let c1 := match map_find kSERVER_NAME c0 with
    | none =>
      match gethostname with
      | some name => map_insert (kSERVER_NAME, name) c0
      | none => c0
    | some _ => c0
  let c2 := match map_find kBIND_ADDRESS c1 with
    | none => map_insert (kBIND_ADDRESS, dBIND_ADDRESS) c1
    | some _ => c1
  match map_find kPORT c2 with
  | none => map_insert (kPORT, dPORT) c2
  | some _ => c2

/-- An inbound request as `ASI::routing` reads it through libevent:
`evhttp_request_get_command`, `evhttp_uri_get_path` and `evhttp_uri_get_query`
(`none` is the null pointer). -/
structure evhttp_request where
  command : Nat
  uri_path : Option String
  uri_query : Option String

/-- The libevent constant `EVHTTP_REQ_GET = 1 << 0`. -/
def EVHTTP_REQ_GET : Nat := 1
/-- The libevent constant `EVHTTP_REQ_POST = 1 << 1`. -/
def EVHTTP_REQ_POST : Nat := 2
/-- The libevent constant `HTTP_OK`. -/
def HTTP_OK : Int := 200
/-- The libevent constant `HTTP_INTERNAL`. -/
def HTTP_INTERNAL : Int := 500

/-- The three out-parameters of `ApplicationInterface::call`. -/
structure Response where
  response_status_code : Int
  response_body : String
  response_headers : headers_t

/-- The interface `ApplicationInterface`: `call` reads the environment and updates the
three out-parameters it is handed by reference. -/
structure ApplicationInterface where
  call : environment_t → Response → Response

/-- The data members of the class `ASI`; `application_` is `none` for an empty
`unique_ptr`. -/
structure ASI where
  application_ : Option ApplicationInterface
  config_ : config_t

/-- What `ASI::routing` hands to the transport for delivery: the arguments of
`evhttp_send_reply` with the pairs given to `evhttp_add_header` (in order) and the text
written to the buffer, or the arguments of `evhttp_send_error`. -/
inductive Reply where
  | evhttp_send_reply (code : Int) (reason : String)
      (output_headers : List (String × String)) (buf : String)
  | evhttp_send_error (code : Int) (reason : String)

/-- Status code of the transport-level reply. -/
def Reply.status : Reply → Int
  | .evhttp_send_reply code _ _ _ => code
  | .evhttp_send_error code _ => code

/-- Header pairs `ASI::routing` put on the transport-level reply. -/
def Reply.headers : Reply → List (String × String)
  | .evhttp_send_reply _ _ output_headers _ => output_headers
  | .evhttp_send_error _ _ => []

/-- Body `ASI::routing` put on the transport-level reply (the reason text for an error
reply). -/
def Reply.body : Reply → String
  | .evhttp_send_reply _ _ _ buf => buf
  | .evhttp_send_error _ reason => reason

/-- One completed run of `ASI::routing`: the environment the application was called
with, the out-parameters as `application_->call` left them, and the reply handed to the
transport. -/
structure Routed where
  environment : environment_t
  response : Response
  reply : Reply

/-- Lines 86-96 of `ASI::routing`: the environment built for a request. -/
def routing_environment (config_ : config_t) (request : evhttp_request) :
    Except Exn environment_t := do
  let environment : environment_t := []
  let request_method := if request.command &&& EVHTTP_REQ_GET ≠ 0 then "GET" else "POST"
  let environment := map_insert ("REQUEST_METHOD", request_method) environment
  let environment := map_insert ("SCRIPT_NAME", "") environment
  let path := request.uri_path
  let environment := map_insert ("PATH_INFO", match path with
    | some p => p
    | none => "") environment
  let query := request.uri_query
  let environment := map_insert ("QUERY_STRING", match query with
    | some q => q
    | none => "") environment
  let server_name ← map_at config_ kSERVER_NAME
  let environment := map_insert ("SERVER_NAME", server_name) environment
  let server_port ← map_at config_ kPORT
  let environment := map_insert ("SERVER_PORT", server_port) environment
  pure environment

/-- The text `evbuffer_add_printf(buf, "Response: code:%d, body:%s", code, body)`
appends to an empty buffer. -/
def add_printf (response_status_code : Int) (body : String) : String :=
  "Response: code:" ++ toString response_status_code ++ ", body:" ++ body

/-- The member function `ASI::routing`. `evbuffer_new_ok` tells whether `evbuffer_new`
returned a buffer. -/
def routing (self : ASI) (request : evhttp_request) (evbuffer_new_ok : Bool) :
    Except Exn Routed := do
  let environment ← routing_environment self.config_ request
  let application ← match self.application_ with
    | some a => pure a
    | none => throw Exn.null_application
  let r := application.call environment ⟨0, "", []⟩
  if !evbuffer_new_ok then
    pure ⟨environment, r, .evhttp_send_error HTTP_INTERNAL "Internal Server Error."⟩
  else
    let output_headers := r.response_headers.foldl
      (fun out kv => out ++ [(c_str kv.1, c_str kv.2)]) []
    let buf := add_printf r.response_status_code (c_str r.response_body)
    pure ⟨environment, r, .evhttp_send_reply HTTP_OK "OK" output_headers buf⟩

/-- The C function `isspace` in the "C" locale. -/
def isspace (c : Char) : Bool :=
  c.toNat = 32 || (9 ≤ c.toNat && c.toNat ≤ 13)

/-- Value of a run of decimal digits. -/
def digits_value (ds : List Char) : Nat :=
  ds.foldl (fun acc c => 10 * acc + (c.toNat - 48)) 0

/-- The library function `std::stoi(str)` (base 10): leading white space is skipped, an
optional sign is read, then the longest run of digits; no digit throws
`std::invalid_argument`, a value outside `int` throws `std::out_of_range`. -/
def stoi (str : String) : Except Exn Int :=
  let cs := (c_str str).data.dropWhile isspace
  let signed : Bool × List Char := match cs with
    | c :: rest => if c = '-' then (true, rest) else if c = '+' then (false, rest)
      else (false, cs)
    | [] => (false, [])
  let ds := signed.2.takeWhile Char.isDigit
  if ds = [] then .error .invalid_argument
  else
    let v : Int := if signed.1 then - (digits_value ds : Int) else (digits_value ds : Int)
    if v < -2147483648 ∨ 2147483647 < v then .error .out_of_range
    else .ok v

/-- The calls `ASI::run` makes on the transport, in order. The port of
`evhttp_bind_socket` is an `ev_uint16_t`: the `int` from `std::stoi` is narrowed modulo
65536 at the call. -/
inductive TransportCall where
  | event_base_new
  | evhttp_new
  | evhttp_bind_socket (address : String) (port : Nat)
  | evhttp_set_allowed_methods (methods : Nat)
  | evhttp_set_gencb
  | event_base_dispatch
  | evhttp_free
  deriving DecidableEq, Repr

/-- One call of `ASI::run`: the object afterwards, the transport calls made, and whether
the call returned or threw. -/
structure Ran where
  self : ASI
  transport : List TransportCall
  outcome : Except Exn Unit

/-- The member function `ASI::run`. `application = none` is the null pointer. -/
def run (self : ASI) (application : Option ApplicationInterface)
    (config : Option config_t) (gethostname : Option String) : Ran :=
  match application with
  | none => ⟨self, [], .error (.runtime_error "")⟩
  | some a =>
    let self1 : ASI := { self with application_ := some a }
    let self2 : ASI := { self1 with config_ := configure_by self1.config_ config gethostname }
    let t := [TransportCall.event_base_new, TransportCall.evhttp_new]
    match map_at self2.config_ kBIND_ADDRESS with
    | .error e => ⟨self2, t, .error e⟩
    | .ok address =>
      match map_at self2.config_ kPORT with
      | .error e => ⟨self2, t, .error e⟩
      | .ok port_str =>
        match stoi port_str with
        | .error e => ⟨self2, t, .error e⟩
        | .ok port =>
          ⟨self2,
            t ++ [.evhttp_bind_socket (c_str address) (port % 65536).toNat,
              .evhttp_set_allowed_methods (EVHTTP_REQ_GET ||| EVHTTP_REQ_POST),
              .evhttp_set_gencb, .event_base_dispatch, .evhttp_free],
            .ok ()⟩

/-- The member function `ASI::version`. -/
def version : version_t :=
  [0, 1]

/-- A default-constructed `ASI` (`ASI() = default`). -/
def ASI.fresh : ASI :=
  ⟨none, []⟩

/-! ## Reference definitions following the specification -/

/-- Default-filling of one recognized key, as the specification words it: when the key is
absent from the mapping and a default could be computed, the default is inserted. -/
def with_default (k : String) (d : Option String) (c : config_t) : config_t :=
  match map_find k c, d with
  | none, some v => map_insert (k, v) c
  | _, _ => c

/-- Configuration resolution as the specification words it: start from the override (or
the empty mapping if none is given), then default-fill `server_name` from the host-name
lookup and `bind_address`, `port` from the literal constants. -/
def resolve (override : Option config_t) (lookup : Option String) : config_t :=
  with_default "port" (some "7077")
    (with_default "bind_address" (some "0.0.0.0")
      (with_default "server_name" lookup (override.getD [])))

/-- The default the specification gives to a key: the looked-up host name for
`server_name`, the literal constants for `bind_address` and `port`, none otherwise. -/
def default_of (lookup : Option String) (k : String) : Option String :=
  if k = "server_name" then lookup
  else if k = "bind_address" then some "0.0.0.0"
  else if k = "port" then some "7077"
  else none

/-! ## Sample inputs and auxiliary definitions -/

/-- The environment `ASI::routing` builds when `server_name` and `port` are configured. -/
def environment_of (request : evhttp_request) (sn p : String) : environment_t :=
  [("PATH_INFO", request.uri_path.getD ""),
   ("QUERY_STRING", request.uri_query.getD ""),
   ("REQUEST_METHOD", if request.command &&& EVHTTP_REQ_GET ≠ 0 then "GET" else "POST"),
   ("SCRIPT_NAME", ""),
   ("SERVER_NAME", sn),
   ("SERVER_PORT", p)]

/-- The reply `ASI::routing` assembles from what the application returned. -/
def reply_of (r : Response) (evbuffer_new_ok : Bool) : Reply :=
  if evbuffer_new_ok then
    .evhttp_send_reply HTTP_OK "OK"
      (r.response_headers.map (fun kv => (c_str kv.1, c_str kv.2)))
      (add_printf r.response_status_code (c_str r.response_body))
  else .evhttp_send_error HTTP_INTERNAL "Internal Server Error."

/-- The sample application of the documentation (`MyApplication::call`). -/
def MyApplication : ApplicationInterface :=
  ⟨fun _ r =>
    { response_status_code := 200
      response_headers := map_insert ("Content-Type", "text/plain") r.response_headers
      response_body := "Hello, ASI!!" }⟩

/-- An application that returns the environment it was called with as its headers. -/
def EchoApplication : ApplicationInterface :=
  ⟨fun environment r => { r with response_status_code := 200, response_headers := environment }⟩

/-- The request `GET /` without a query. -/
def get_root : evhttp_request :=
  ⟨EVHTTP_REQ_GET, some "/", none⟩

/-- An application answering every request with status 404 and nothing else. -/
def NotFoundApplication : ApplicationInterface :=
  ⟨fun _ r => { r with response_status_code := 404 }⟩

/-- An application whose body holds a NUL character between two letters. -/
def BinaryApplication : ApplicationInterface :=
  ⟨fun _ r => { r with response_status_code := 200, response_body := "a\x00b" }⟩

/-- A string without a NUL character, that is, one a C string can carry whole. -/
def no_nul (s : String) : Prop :=
  Char.ofNat 0 ∉ s.data

instance (s : String) : Decidable (no_nul s) :=
  inferInstanceAs (Decidable (Char.ofNat 0 ∉ s.data))

/-- A configuration as resolved on a host named `localhost`. -/
def localhost_config : config_t :=
  configure_by [] none (some "localhost")

/-! ## The map operations -/

theorem map_find_insert_sorted (k v k' : String) (m : map_t) (h : map_find k m = none) :
    map_find k' (insert_sorted k v m) = if k' = k then some v else map_find k' m := by
  induction m with
  | nil => simp [insert_sorted, map_find]
  | cons hd tl ih =>
    obtain ⟨a, b⟩ := hd
    have hne : k ≠ a := by
      intro e
      simp [map_find, e] at h
    have htl : map_find k tl = none := by
      simpa [map_find, hne] using h
    by_cases hlt : key_lt k a = true
    · simp [insert_sorted, hlt, map_find]
    · by_cases e : k' = a
      · have : k' ≠ k := fun e2 => hne (e2 ▸ e)
        have hak : a ≠ k := fun e3 => hne e3.symm
        simp [insert_sorted, hlt, map_find, e, hak]
      · simp [insert_sorted, hlt, map_find, e, ih htl]

theorem map_find_map_insert (k v k' : String) (m : map_t) :
    map_find k' (map_insert (k, v) m) =
      match map_find k' m with
      | some x => some x
      | none => if k' = k then some v else none := by
  unfold map_insert
  cases h : map_find k m with
  | some x =>
    simp only
    cases h' : map_find k' m with
    | some y => rfl
    | none =>
      have : k' ≠ k := by
        intro e
        rw [e, h] at h'
        cases h'
      simp [this]
  | none =>
    simp only
    rw [map_find_insert_sorted k v k' m h]
    by_cases e : k' = k
    · simp [e, h]
    · simp only [e, if_false]
      cases map_find k' m <;> rfl

theorem map_find_isSome_iff_mem_keys (k : String) (m : map_t) :
    (map_find k m).isSome = true ↔ k ∈ keys m := by
  induction m with
  | nil => simp [map_find, keys]
  | cons hd tl ih =>
    obtain ⟨a, b⟩ := hd
    by_cases e : k = a
    · simp [map_find, keys, e]
    · have ih' : (map_find k tl).isSome = true ↔ k ∈ List.map Prod.fst tl := ih
      simp [map_find, keys, e, ih']

theorem map_at_of_find {m : map_t} {k v : String} (h : map_find k m = some v) :
    map_at m k = .ok v := by
  simp [map_at, h]

/-! ## Configuration resolution -/

theorem map_find_with_default (k : String) (d : Option String) (c : config_t) (k' : String) :
    map_find k' (with_default k d c) =
      match map_find k' c with
      | some x => some x
      | none => if k' = k then d else none := by
  unfold with_default
  cases h : map_find k c with
  | some x =>
    simp only
    cases h' : map_find k' c with
    | some y => rfl
    | none =>
      have : k' ≠ k := by
        intro e
        rw [e, h] at h'
        cases h'
      simp [this]
  | none =>
    cases d with
    | none =>
      simp only
      cases h' : map_find k' c with
      | some y => rfl
      | none => simp
    | some v =>
      simp only
      rw [map_find_map_insert]

theorem configure_by_eq_with_default (config_ : config_t) (config : Option config_t)
    (gethostname : Option String) :
    configure_by config_ config gethostname =
      with_default "port" (some "7077")
        (with_default "bind_address" (some "0.0.0.0")
          (with_default "server_name" gethostname (config.getD config_))) := by
  have h0 : (match config with
      | some c => c
      | none => config_) = config.getD config_ := by
    cases config <;> rfl
  have h1 : ∀ c : config_t, (match map_find kSERVER_NAME c with
      | none =>
        match gethostname with
        | some name => map_insert (kSERVER_NAME, name) c
        | none => c
      | some _ => c) = with_default "server_name" gethostname c := by
    intro c
    unfold with_default kSERVER_NAME
    cases map_find "server_name" c <;> cases gethostname <;> rfl
  have h2 : ∀ (k v : String) (c : config_t), (match map_find k c with
      | none => map_insert (k, v) c
      | some _ => c) = with_default k (some v) c := by
    intro k v c
    unfold with_default
    cases map_find k c <;> rfl
  unfold configure_by
  simp only [h0, h1, h2]
  rfl

theorem map_find_configure_by (config_ : config_t) (config : Option config_t)
    (gethostname : Option String) (k : String) :
    map_find k (configure_by config_ config gethostname) =
      match map_find k (config.getD config_) with
      | some x => some x
      | none => default_of gethostname k := by
  rw [configure_by_eq_with_default]
  simp only [map_find_with_default]
  unfold default_of
  cases h : map_find k (config.getD config_) with
  | some x => rfl
  | none =>
    simp only
    by_cases e1 : k = "server_name"
    · subst e1
      cases gethostname with
      | none => simp
      | some n => simp
    · by_cases e2 : k = "bind_address"
      · subst e2
        simp
      · by_cases e3 : k = "port"
        · subst e3
          simp
        · simp [e1, e2, e3]

/-- Without an override `ASI::configure_by` default-fills the stored configuration. -/
theorem configure_by_none (stored : config_t) (lookup : Option String) :
    configure_by stored none lookup = resolve (some stored) lookup := by
  rw [configure_by_eq_with_default]
  rfl

/-! ## The environment of a request -/

theorem routing_environment_ok (config_ : config_t) (request : evhttp_request)
    (sn p : String) (hsn : map_find kSERVER_NAME config_ = some sn)
    (hp : map_find kPORT config_ = some p) :
    routing_environment config_ request = .ok
      [("PATH_INFO", request.uri_path.getD ""),
       ("QUERY_STRING", request.uri_query.getD ""),
       ("REQUEST_METHOD", if request.command &&& EVHTTP_REQ_GET ≠ 0 then "GET" else "POST"),
       ("SCRIPT_NAME", ""),
       ("SERVER_NAME", sn),
       ("SERVER_PORT", p)] := by
  unfold routing_environment
  rw [map_at_of_find hsn, map_at_of_find hp]
  cases request.uri_path <;> cases request.uri_query <;> rfl

theorem routing_environment_no_server_name (config_ : config_t) (request : evhttp_request)
    (hsn : map_find kSERVER_NAME config_ = none) :
    routing_environment config_ request = .error .out_of_range := by
  unfold routing_environment
  simp only [map_at, hsn]
  rfl

theorem foldl_append_singleton {α β : Type} (f : α → β) (l : List α) (acc : List β) :
    l.foldl (fun out kv => out ++ [f kv]) acc = acc ++ l.map f := by
  induction l generalizing acc with
  | nil => simp
  | cons hd tl ih => simp [ih]

theorem routing_ok (self : ASI) (application : ApplicationInterface)
    (request : evhttp_request) (evbuffer_new_ok : Bool) (sn p : String)
    (happ : self.application_ = some application)
    (hsn : map_find kSERVER_NAME self.config_ = some sn)
    (hp : map_find kPORT self.config_ = some p) :
    routing self request evbuffer_new_ok = .ok
      ⟨environment_of request sn p,
        application.call (environment_of request sn p) ⟨0, "", []⟩,
        reply_of (application.call (environment_of request sn p) ⟨0, "", []⟩)
          evbuffer_new_ok⟩ := by
  unfold routing
  rw [routing_environment_ok self.config_ request sn p hsn hp, happ]
  cases evbuffer_new_ok with
  | false => rfl
  | true =>
    show Except.ok _ = Except.ok _
    congr 2
    unfold reply_of
    simp only [if_true]
    congr 1
    rw [foldl_append_singleton, List.nil_append]
    rfl

theorem configure_by_port (config_ : config_t) (config : Option config_t)
    (gethostname : Option String) :
    ∃ p, map_find kPORT (configure_by config_ config gethostname) = some p := by
  rw [map_find_configure_by]
  cases map_find kPORT (config.getD config_) with
  | some x => exact ⟨x, rfl⟩
  | none => exact ⟨"7077", rfl⟩

theorem configure_by_bind_address (config_ : config_t) (config : Option config_t)
    (gethostname : Option String) :
    ∃ a, map_find kBIND_ADDRESS (configure_by config_ config gethostname) = some a := by
  rw [map_find_configure_by]
  cases map_find kBIND_ADDRESS (config.getD config_) with
  | some x => exact ⟨x, rfl⟩
  | none => exact ⟨"0.0.0.0", rfl⟩

theorem and_get_ne_zero_iff (command : Nat) :
    command &&& EVHTTP_REQ_GET ≠ 0 ↔ Nat.testBit command 0 = true := by
  unfold EVHTTP_REQ_GET
  rw [Nat.and_one_is_mod, Nat.testBit_zero]
  simp only [decide_eq_true_eq]
  omega

/-- C2: for every request handled under a resolved configuration that holds a
`server_name`, `ASI::routing` calls the application, and the environment it passes to
`call` (the out-parameters recorded are those `call` leaves on exactly this environment
and the initial `0`, `""`, empty headers) has exactly the keys `REQUEST_METHOD`,
`SCRIPT_NAME`, `PATH_INFO`, `QUERY_STRING`, `SERVER_NAME`, `SERVER_PORT`, where
`SCRIPT_NAME` is the empty string and `SERVER_NAME`, `SERVER_PORT` are the
configuration's `server_name` and `port` values, whatever the request. -/
theorem routing_environment_complete (stored : config_t) (override : Option config_t)
    (gethostname : Option String) (application : ApplicationInterface)
    (request : evhttp_request) (evbuffer_new_ok : Bool) (sn : String)
    (hsn : map_find kSERVER_NAME (configure_by stored override gethostname) = some sn) :
    ∃ (r : Routed) (p : String),
      map_find kPORT (configure_by stored override gethostname) = some p
      ∧ routing ⟨some application, configure_by stored override gethostname⟩ request
          evbuffer_new_ok = .ok r
      ∧ r.response = application.call r.environment ⟨0, "", []⟩
      ∧ (evbuffer_new_ok = true →
          r.reply = .evhttp_send_reply HTTP_OK "OK"
            ((application.call r.environment ⟨0, "", []⟩).response_headers.map
              (fun kv => (c_str kv.1, c_str kv.2)))
            (add_printf (application.call r.environment ⟨0, "", []⟩).response_status_code
              (c_str (application.call r.environment ⟨0, "", []⟩).response_body)))
      ∧ keys r.environment =
          ["PATH_INFO", "QUERY_STRING", "REQUEST_METHOD", "SCRIPT_NAME", "SERVER_NAME",
            "SERVER_PORT"]
      ∧ (∀ k : String, (map_find k r.environment).isSome = true ↔
          k ∈ ["REQUEST_METHOD", "SCRIPT_NAME", "PATH_INFO", "QUERY_STRING", "SERVER_NAME",
            "SERVER_PORT"])
      ∧ map_find "SCRIPT_NAME" r.environment = some ""
      ∧ map_find "SERVER_NAME" r.environment = some sn
      ∧ map_find "SERVER_PORT" r.environment = some p := by
  obtain ⟨p, hp⟩ := configure_by_port stored override gethostname
  refine ⟨_, p, hp, routing_ok ⟨some application, _⟩ application request evbuffer_new_ok
    sn p rfl hsn hp, rfl, ?_, rfl, ?_, rfl, rfl, rfl⟩
  · intro h
    subst h
    rfl
  · intro k
    rw [map_find_isSome_iff_mem_keys]
    simp only [keys, environment_of, List.map, List.mem_cons, List.mem_singleton,
      List.not_mem_nil, or_false]
    tauto

theorem routing_environment_complete_witness :
    ∃ (r : Routed) (p : String),
      map_find kPORT (configure_by [] none (some "localhost")) = some p
      ∧ routing ⟨some EchoApplication, configure_by [] none (some "localhost")⟩ get_root
          true = .ok r
      ∧ r.response = EchoApplication.call r.environment ⟨0, "", []⟩
      ∧ (true = true →
          r.reply = .evhttp_send_reply HTTP_OK "OK"
            ((EchoApplication.call r.environment ⟨0, "", []⟩).response_headers.map
              (fun kv => (c_str kv.1, c_str kv.2)))
            (add_printf (EchoApplication.call r.environment ⟨0, "", []⟩).response_status_code
              (c_str (EchoApplication.call r.environment ⟨0, "", []⟩).response_body)))
      ∧ keys r.environment =
          ["PATH_INFO", "QUERY_STRING", "REQUEST_METHOD", "SCRIPT_NAME", "SERVER_NAME",
            "SERVER_PORT"]
      ∧ (∀ k : String, (map_find k r.environment).isSome = true ↔
          k ∈ ["REQUEST_METHOD", "SCRIPT_NAME", "PATH_INFO", "QUERY_STRING", "SERVER_NAME",
            "SERVER_PORT"])
      ∧ map_find "SCRIPT_NAME" r.environment = some ""
      ∧ map_find "SERVER_NAME" r.environment = some "localhost"
      ∧ map_find "SERVER_PORT" r.environment = some p :=
  routing_environment_complete [] none (some "localhost") EchoApplication get_root true
    "localhost" rfl

/-- What an application sees: one that returns the environment it was called with as its
headers makes `ASI::routing` hand exactly the six environment pairs to the transport. -/
theorem routing_echo_reply :
    (routing ⟨some EchoApplication, localhost_config⟩ get_root true).toOption.map
        (fun r => r.reply.headers) =
      some [("PATH_INFO", "/"), ("QUERY_STRING", ""), ("REQUEST_METHOD", "GET"),
        ("SCRIPT_NAME", ""), ("SERVER_NAME", "localhost"), ("SERVER_PORT", "7077")] :=
  rfl

/-- C7: whenever `ASI::routing` runs with an application registered and `server_name`,
`port` configured, `REQUEST_METHOD` in the environment handed to the application is
`"GET"` if the GET bit of the request command is set and `"POST"` otherwise, hence never
any other value. -/
theorem routing_request_method (self : ASI) (application : ApplicationInterface)
    (request : evhttp_request) (evbuffer_new_ok : Bool) (sn p : String)
    (happ : self.application_ = some application)
    (hsn : map_find kSERVER_NAME self.config_ = some sn)
    (hp : map_find kPORT self.config_ = some p) :
    ∃ r : Routed, routing self request evbuffer_new_ok = .ok r
      ∧ (Nat.testBit request.command 0 = true →
          map_find "REQUEST_METHOD" r.environment = some "GET")
      ∧ (Nat.testBit request.command 0 = false →
          map_find "REQUEST_METHOD" r.environment = some "POST")
      ∧ (map_find "REQUEST_METHOD" r.environment = some "GET"
          ∨ map_find "REQUEST_METHOD" r.environment = some "POST") := by
  refine ⟨_, routing_ok self application request evbuffer_new_ok sn p happ hsn hp, ?_, ?_, ?_⟩
  · intro h
    have h' := (and_get_ne_zero_iff request.command).mpr h
    show some (if request.command &&& EVHTTP_REQ_GET ≠ 0 then "GET" else "POST") = some "GET"
    rw [if_pos h']
  · intro h
    have h' : ¬ (request.command &&& EVHTTP_REQ_GET ≠ 0) := by
      rw [and_get_ne_zero_iff, h]
      simp
    show some (if request.command &&& EVHTTP_REQ_GET ≠ 0 then "GET" else "POST") = some "POST"
    rw [if_neg h']
  · show some (if request.command &&& EVHTTP_REQ_GET ≠ 0 then "GET" else "POST") = some "GET"
      ∨ some (if request.command &&& EVHTTP_REQ_GET ≠ 0 then "GET" else "POST") = some "POST"
    by_cases h : request.command &&& EVHTTP_REQ_GET ≠ 0
    · rw [if_pos h]
      exact Or.inl rfl
    · rw [if_neg h]
      exact Or.inr rfl

theorem routing_request_method_witness :
    ∃ r : Routed,
      routing ⟨some MyApplication, [("port", "7077"), ("server_name", "localhost")]⟩
        ⟨EVHTTP_REQ_POST, some "/items", some "id=1"⟩ true = .ok r
      ∧ (Nat.testBit EVHTTP_REQ_POST 0 = true →
          map_find "REQUEST_METHOD" r.environment = some "GET")
      ∧ (Nat.testBit EVHTTP_REQ_POST 0 = false →
          map_find "REQUEST_METHOD" r.environment = some "POST")
      ∧ (map_find "REQUEST_METHOD" r.environment = some "GET"
          ∨ map_find "REQUEST_METHOD" r.environment = some "POST") :=
  routing_request_method ⟨some MyApplication, [("port", "7077"), ("server_name", "localhost")]⟩
    MyApplication ⟨EVHTTP_REQ_POST, some "/items", some "id=1"⟩ true "localhost" "7077"
    rfl rfl rfl

/-- C8: whenever `ASI::routing` runs with an application registered and `server_name`,
`port` configured, `PATH_INFO` in the environment handed to the application is the URI
path when one is present and the empty string when it is null, and `QUERY_STRING` is the
URI query when one is present and the empty string when it is null; a present path or
query is passed through unmodified. -/
theorem routing_path_and_query (self : ASI) (application : ApplicationInterface)
    (request : evhttp_request) (evbuffer_new_ok : Bool) (sn p : String)
    (happ : self.application_ = some application)
    (hsn : map_find kSERVER_NAME self.config_ = some sn)
    (hp : map_find kPORT self.config_ = some p) :
    ∃ r : Routed, routing self request evbuffer_new_ok = .ok r
      ∧ (∀ path : String, request.uri_path = some path →
          map_find "PATH_INFO" r.environment = some path)
      ∧ (request.uri_path = none → map_find "PATH_INFO" r.environment = some "")
      ∧ (∀ query : String, request.uri_query = some query →
          map_find "QUERY_STRING" r.environment = some query)
      ∧ (request.uri_query = none → map_find "QUERY_STRING" r.environment = some "") := by
  refine ⟨_, routing_ok self application request evbuffer_new_ok sn p happ hsn hp, ?_, ?_, ?_, ?_⟩
  · intro path h
    show some (request.uri_path.getD "") = some path
    rw [h]
    rfl
  · intro h
    show some (request.uri_path.getD "") = some ""
    rw [h]
    rfl
  · intro query h
    show some (request.uri_query.getD "") = some query
    rw [h]
    rfl
  · intro h
    show some (request.uri_query.getD "") = some ""
    rw [h]
    rfl

theorem routing_path_and_query_witness :
    ∃ r : Routed,
      routing ⟨some MyApplication, [("port", "7077"), ("server_name", "localhost")]⟩
        ⟨EVHTTP_REQ_GET, some "/items", none⟩ false = .ok r
      ∧ (∀ path : String, (some "/items" : Option String) = some path →
          map_find "PATH_INFO" r.environment = some path)
      ∧ ((some "/items" : Option String) = none →
          map_find "PATH_INFO" r.environment = some "")
      ∧ (∀ query : String, (none : Option String) = some query →
          map_find "QUERY_STRING" r.environment = some query)
      ∧ ((none : Option String) = none → map_find "QUERY_STRING" r.environment = some "") :=
  routing_path_and_query ⟨some MyApplication, [("port", "7077"), ("server_name", "localhost")]⟩
    MyApplication ⟨EVHTTP_REQ_GET, some "/items", none⟩ false "localhost" "7077" rfl rfl rfl

/-! ## The server lifecycle -/

/-- C6: `ASI::run` called with a null application throws at once, for every server state,
override and host-name lookup outcome: the object afterwards equals the object before (no
application registered, stored configuration untouched) and no call is made on the
transport. -/
theorem run_null_application (self : ASI) (config : Option config_t)
    (gethostname : Option String) :
    (run self none config gethostname).outcome = .error (.runtime_error "")
    ∧ (run self none config gethostname).self = self
    ∧ (run self none config gethostname).self.config_ = self.config_
    ∧ (run self none config gethostname).self.application_.isSome = self.application_.isSome
    ∧ (run self none config gethostname).transport = [] :=
  ⟨rfl, rfl, rfl, rfl, rfl⟩

/-- C9: in the degraded configuration (no `server_name` supplied and the host-name lookup
failed) `ASI::routing` throws `std::out_of_range` from `config_.at(kSERVER_NAME)` for
every request: no environment is completed and the application is not invoked. -/
theorem routing_degraded_throws (application : ApplicationInterface)
    (request : evhttp_request) (evbuffer_new_ok : Bool) :
    map_find kSERVER_NAME (run ASI.fresh (some application) none none).self.config_ = none
    ∧ routing (run ASI.fresh (some application) none none).self request evbuffer_new_ok =
        .error .out_of_range := by
  have h : map_find kSERVER_NAME (run ASI.fresh (some application) none none).self.config_ =
      none := rfl
  refine ⟨h, ?_⟩
  unfold routing
  rw [routing_environment_no_server_name _ request h]
  rfl

/-! ## The reply -/

/-- The reply status `ASI::routing` sends is `HTTP_OK` when the buffer was allocated and
`HTTP_INTERNAL` otherwise, whatever the application returned; the body is the fixed text
around the application status and body. -/
theorem routing_reply_shape (self : ASI) (application : ApplicationInterface)
    (request : evhttp_request) (evbuffer_new_ok : Bool) (sn p : String)
    (happ : self.application_ = some application)
    (hsn : map_find kSERVER_NAME self.config_ = some sn)
    (hp : map_find kPORT self.config_ = some p) :
    ∃ r : Routed, routing self request evbuffer_new_ok = .ok r
      ∧ r.reply.status = (if evbuffer_new_ok then 200 else 500)
      ∧ (evbuffer_new_ok = true → r.reply.body =
          "Response: code:" ++
            toString (application.call r.environment ⟨0, "", []⟩).response_status_code ++
            ", body:" ++ c_str (application.call r.environment ⟨0, "", []⟩).response_body) := by
  refine ⟨_, routing_ok self application request evbuffer_new_ok sn p happ hsn hp, ?_, ?_⟩
  · cases evbuffer_new_ok <;> rfl
  · intro h
    subst h
    rfl

theorem c_str_of_no_nul (s : String) (h : no_nul s) : c_str s = s := by
  unfold c_str
  have : s.data.takeWhile (fun c => decide (c ≠ Char.ofNat 0)) = s.data := by
    rw [List.takeWhile_eq_self_iff]
    intro c hc
    simp only [ne_eq, decide_not, Bool.not_eq_eq_eq_not, Bool.not_true, decide_eq_false_iff_not]
    intro e
    exact h (e ▸ hc)
  rw [this]

/-- C3: with the application returning status 404 the reply `ASI::routing` sends has
status `HTTP_OK` = 200; the application status only appears inside the body text. -/
theorem routing_status_not_forwarded :
    ∃ r : Routed,
      routing ⟨some NotFoundApplication, localhost_config⟩ get_root true = .ok r
      ∧ (NotFoundApplication.call r.environment ⟨0, "", []⟩).response_status_code = 404
      ∧ r.reply.status = 200
      ∧ r.reply.body = "Response: code:404, body:" :=
  ⟨_, rfl, rfl, rfl, rfl⟩

/-- C5: with the sample application of the documentation the reply body `ASI::routing`
sends is `Response: code:200, body:Hello, ASI!!`, not the application body
`Hello, ASI!!`. -/
theorem routing_body_wrapped :
    ∃ r : Routed,
      routing ⟨some MyApplication, localhost_config⟩ get_root true = .ok r
      ∧ (MyApplication.call r.environment ⟨0, "", []⟩).response_body = "Hello, ASI!!"
      ∧ r.reply.body = "Response: code:200, body:Hello, ASI!!"
      ∧ r.reply.body ≠ (MyApplication.call r.environment ⟨0, "", []⟩).response_body :=
  ⟨_, rfl, rfl, rfl, by decide⟩

/-- The reply for the sample application of the documentation: status 200, the header
`Content-Type: text/plain`, and the wrapped body. -/
theorem routing_sample_reply :
    (routing ⟨some MyApplication, localhost_config⟩ get_root true).toOption.map
        (fun r => r.reply) =
      some (.evhttp_send_reply 200 "OK" [("Content-Type", "text/plain")]
        "Response: code:200, body:Hello, ASI!!") :=
  rfl

/-- C4, as stated, fails: an application body with a NUL character in it reaches the
reply cut at the NUL, so the reply body does not contain the application body. -/
theorem routing_body_cut_at_nul :
    ∃ r : Routed,
      routing ⟨some BinaryApplication, localhost_config⟩ get_root true = .ok r
      ∧ (BinaryApplication.call r.environment ⟨0, "", []⟩).response_body = "a\x00b"
      ∧ r.reply.body = "Response: code:200, body:a"
      ∧ ¬ ∃ pre post : String, r.reply.body = pre ++ "a\x00b" ++ post := by
  refine ⟨_, rfl, rfl, rfl, ?_⟩
  rintro ⟨pre, post, h⟩
  have h1 : Char.ofNat 0 ∈ (pre ++ "a\x00b" ++ post).data := by
    simp only [String.data_append, List.mem_append]
    exact Or.inl (Or.inr (by decide))
  rw [← h] at h1
  revert h1
  decide

/-- What the transport is handed when the reply buffer was allocated: every header pair
of the application as C strings, and a body that has the application body as a C string
at its end. -/
theorem routing_reply_c_strings (self : ASI) (application : ApplicationInterface)
    (request : evhttp_request) (sn p : String)
    (happ : self.application_ = some application)
    (hsn : map_find kSERVER_NAME self.config_ = some sn)
    (hp : map_find kPORT self.config_ = some p) :
    ∃ r : Routed, routing self request true = .ok r
      ∧ r.reply.headers =
          (application.call r.environment ⟨0, "", []⟩).response_headers.map
            (fun kv => (c_str kv.1, c_str kv.2))
      ∧ (∃ pre : String, r.reply.body =
          pre ++ c_str (application.call r.environment ⟨0, "", []⟩).response_body) :=
  ⟨_, routing_ok self application request true sn p happ hsn hp, rfl, _, rfl⟩

/-- C4, amended: whenever `ASI::routing` runs with an application registered,
`server_name` and `port` configured and the reply buffer allocated, the reply carries every
header pair the application returned whose key and value hold no NUL character, and, when
the application body holds no NUL character, the reply body contains the application body
as a contiguous substring. -/
theorem routing_reply_carries_result (self : ASI) (application : ApplicationInterface)
    (request : evhttp_request) (sn p : String)
    (happ : self.application_ = some application)
    (hsn : map_find kSERVER_NAME self.config_ = some sn)
    (hp : map_find kPORT self.config_ = some p) :
    ∃ r : Routed, routing self request true = .ok r
      ∧ (∀ kv : String × String,
          kv ∈ (application.call r.environment ⟨0, "", []⟩).response_headers →
          no_nul kv.1 → no_nul kv.2 → kv ∈ r.reply.headers)
      ∧ (no_nul (application.call r.environment ⟨0, "", []⟩).response_body →
          ∃ pre post : String, r.reply.body =
            pre ++ (application.call r.environment ⟨0, "", []⟩).response_body ++ post) := by
  refine ⟨_, routing_ok self application request true sn p happ hsn hp, ?_, ?_⟩
  · intro kv hkv h1 h2
    show kv ∈ List.map (fun kv : String × String => (c_str kv.1, c_str kv.2)) _
    refine List.mem_map.mpr ⟨kv, hkv, ?_⟩
    rw [c_str_of_no_nul _ h1, c_str_of_no_nul _ h2]
  · intro h
    refine ⟨"Response: code:" ++ toString (application.call (environment_of request sn p)
      ⟨0, "", []⟩).response_status_code ++ ", body:", "", ?_⟩
    show add_printf _ (c_str _) = _
    rw [c_str_of_no_nul _ h, String.append_empty]
    rfl

theorem routing_reply_carries_result_witness :
    ∃ r : Routed, routing ⟨some MyApplication, localhost_config⟩ get_root true = .ok r
      ∧ (∀ kv : String × String,
          kv ∈ (MyApplication.call r.environment ⟨0, "", []⟩).response_headers →
          no_nul kv.1 → no_nul kv.2 → kv ∈ r.reply.headers)
      ∧ (no_nul (MyApplication.call r.environment ⟨0, "", []⟩).response_body →
          ∃ pre post : String, r.reply.body =
            pre ++ (MyApplication.call r.environment ⟨0, "", []⟩).response_body ++ post) :=
  routing_reply_carries_result ⟨some MyApplication, localhost_config⟩ MyApplication get_root
    "localhost" "7077" rfl rfl rfl

/-- C10, as stated, fails: with a registered application and the override
`{"port": "abc"}`, `ASI::run` throws `std::invalid_argument` from `std::stoi`, and with a
port beyond `int` it throws `std::out_of_range`, after the transport objects were
created and before anything is bound. -/
theorem run_port_not_a_number :
    (run ASI.fresh (some MyApplication) (some [("port", "abc")]) (some "localhost")).outcome =
      .error .invalid_argument
    ∧ (run ASI.fresh (some MyApplication) (some [("port", "99999999999")])
        (some "localhost")).outcome = .error .out_of_range
    ∧ (run ASI.fresh (some MyApplication) (some [("port", "abc")]) (some "localhost")).transport =
      [.event_base_new, .evhttp_new] :=
  ⟨rfl, rfl, rfl⟩

/-- The port `ASI::run` binds is the parsed port narrowed to 16 bits: `"70000"` binds
4464 and `"-1"` binds 65535. -/
theorem run_bind_port_narrowed :
    (run ASI.fresh (some MyApplication) (some [("port", "70000")]) (some "localhost")).transport =
      [.event_base_new, .evhttp_new, .evhttp_bind_socket "0.0.0.0" 4464,
        .evhttp_set_allowed_methods 3, .evhttp_set_gencb, .event_base_dispatch, .evhttp_free]
    ∧ (run ASI.fresh (some MyApplication) (some [("port", "-1")]) (some "localhost")).transport =
      [.event_base_new, .evhttp_new, .evhttp_bind_socket "0.0.0.0" 65535,
        .evhttp_set_allowed_methods 3, .evhttp_set_gencb, .event_base_dispatch, .evhttp_free] :=
  ⟨by decide, by decide⟩

/-- C10, amended: with a registered application `ASI::run` always finds `bind_address`
and `port` in the resolved configuration, and it returns without an error exactly when
`std::stoi` accepts the resolved port value; otherwise it throws what `std::stoi` throws.
In particular it returns without an error whenever the port is defaulted. -/
theorem run_outcome (self : ASI) (application : ApplicationInterface)
    (config : Option config_t) (gethostname : Option String) :
    ∃ address port_str : String,
      map_at (configure_by self.config_ config gethostname) kBIND_ADDRESS = .ok address
      ∧ map_at (configure_by self.config_ config gethostname) kPORT = .ok port_str
      ∧ (run self (some application) config gethostname).outcome =
          (match stoi port_str with
            | .ok _ => .ok ()
            | .error e => .error e)
      ∧ (map_find kPORT (config.getD self.config_) = none →
          (run self (some application) config gethostname).outcome = .ok ()) := by
  obtain ⟨a, ha⟩ := configure_by_bind_address self.config_ config gethostname
  obtain ⟨p, hp⟩ := configure_by_port self.config_ config gethostname
  have hrun : (run self (some application) config gethostname).outcome =
      (match stoi p with
        | .ok _ => .ok ()
        | .error e => .error e) := by
    unfold run
    simp only [map_at_of_find ha, map_at_of_find hp]
    cases stoi p <;> rfl
  refine ⟨a, p, map_at_of_find ha, map_at_of_find hp, hrun, ?_⟩
  intro hnone
  have hp' : p = "7077" := by
    rw [map_find_configure_by, hnone] at hp
    have : default_of gethostname kPORT = some "7077" := rfl
    simp only [this, Option.some.injEq] at hp
    exact hp.symm
  rw [hrun, hp']
  rfl

end cppasi
